import Mathlib

/-!
Verification of the auth core of `task-fastapi-prisma`
(`src/internal/auth/security.py`): password hashing, JWT issuance and
validation, login, request authentication, and token revocation via a
blacklist.

The embedding follows the Python source function by function.  External
collaborators are modelled as follows:

* passlib's bcrypt `CryptContext` is modelled with an ideal digest: a
  well-formed bcrypt hash string records the salt and the secret whose
  digest it embeds (`HashStr.bcrypt`); any other string is
  `HashStr.malformed`, on which `CryptContext.verify` raises
  `UnknownHashError` (a `ValueError`) rather than returning a Bool.
* PyJWT's HMAC signing is modelled with an ideal MAC: the signature of a
  payload under a key is the pair of the payload and the key
  (`Signature`), so a signature verifies exactly when it was produced
  over the same payload with the same key.  `jwt.decode` verifies the
  signature first and then the `exp` claim (expired when `exp ≤ now`,
  matching PyJWT, which invalidates a token on the exact expiry second).
* the Prisma store is explicit state: a `DB` holds the user table and
  the `jwt_blacklist` table, and each operation threads the `DB`.
* configuration (`internal.settings`) is a `Settings` record passed to
  the functions that read it.

Exceptions become `Except AppError`; the two module-level
`HTTPException` constants of the source are the two constructors
`AppError.CredentialException` and `AppError.TokenExpiredException`.
Timestamps are `Int` seconds (UTC); the configured token lifetime is in
minutes, hence the `60 *` conversion where the source adds
`timedelta(minutes=ACCESS_TOKEN_EXPIRE_MINUTES)`.
-/

set_option autoImplicit false

namespace AuthCore

/-- The error values the auth core can surface.  `CredentialException` and
`TokenExpiredException` are the two `HTTPException` constants of
`security.py`; `UnknownHashError` is passlib's error on an unrecognised
hash string; `UniqueViolationError` and `RecordNotFoundError` are the
Prisma client errors for a duplicate unique key and a failed `connect`. -/
inductive AppError where
  | CredentialException
  | TokenExpiredException
  | UnknownHashError
  | UniqueViolationError
  | RecordNotFoundError
deriving DecidableEq, Repr

/-- A bcrypt hash string, idealised.  `bcrypt salt secret` is a
well-formed hash whose embedded digest is the ideal digest of
`(salt, secret)`; `malformed s` is any string passlib cannot identify
as a hash of a known scheme. -/
inductive HashStr where
  | bcrypt (salt : Nat) (secret : String)
  | malformed (s : String)
deriving DecidableEq, Repr

/-- A JWT payload.  The program only ever writes the `sub` and `exp`
claims; `iat` is carried so that its absence from issued tokens is a
statement, not an artefact of the model. -/
structure Payload where
  sub : Option String
  exp : Option Int
  iat : Option Int
deriving DecidableEq, Repr

/-- An ideal HMAC signature: the MAC of a payload under a key is modelled
as the pair itself, so two signatures agree exactly when both the signed
payload and the key agree. -/
structure Signature where
  signedPayload : Payload
  key : String
deriving DecidableEq, Repr

/-- A compact signed token: its (decoded) payload together with the
signature that was attached when it was produced. -/
structure Token where
  payload : Payload
  sig : Signature
deriving DecidableEq, Repr

/-- The ideal HMAC over the full payload. -/
def hmacSign (key : String) (p : Payload) : Signature :=
  ⟨p, key⟩

/-- Errors of PyJWT's `decode` relevant to this program:
`ExpiredSignatureError` is a subclass of `InvalidTokenError` and the
source catches it first. -/
inductive JwtError where
  | invalidSignature
  | expiredSignature
deriving DecidableEq, Repr

/-- `jwt.encode(payload, key, algorithm)`: signs the whole payload with
the key and attaches the signature. -/
def jwt_encode (p : Payload) (key : String) : Token :=
  ⟨p, hmacSign key p⟩

/-- `jwt.decode(token, key, algorithms)`: verifies the signature over the
payload first (`InvalidSignatureError`, a subclass of
`InvalidTokenError`, if it does not match), then validates the `exp`
claim when present (`ExpiredSignatureError` when `exp ≤ now`). -/
def jwt_decode (t : Token) (key : String) (now : Int) : Except JwtError Payload :=
  if t.sig = hmacSign key t.payload then
    match t.payload.exp with
    | none => .ok t.payload
    | some e => if e ≤ now then .error .expiredSignature else .ok t.payload
  else
    .error .invalidSignature

/-- A row of the Prisma `User` table: `id`, unique `email`, and the
stored password hash. -/
structure UserRec where
  id : Nat
  email : String
  password : HashStr
deriving DecidableEq, Repr

/-- A row of the Prisma `JwtBlacklist` table: the revoked token and the
id of the owning user. -/
structure BlacklistEntry where
  token : Token
  userId : Nat
deriving DecidableEq, Repr

/-- Modelled from the spec: the persistence engine (the Prisma schema and
client are not part of the core source).  The store is the user table
and the blacklist table; `find_first` returns the first matching record,
and relation `include` is realised by filtering the blacklist by the
owning user's id. -/
structure DB where
  users : List UserRec
  jwt_blacklist : List BlacklistEntry
deriving DecidableEq, Repr

/-- `User.find_first(where={"email": email})`. -/
def User_find_first (db : DB) (email : String) : Option UserRec :=
  db.users.find? (fun u => u.email == email)

/-- Modelled from the spec: `JWTBlacklist.create` against the Prisma
schema (not under the core source).  Per the spec's data-model invariant
a blacklist entry's token string is unique, so inserting a token already
present fails with the store's `UniqueViolationError`; `connect`-ing a
user id that does not resolve to an existing user fails with
`RecordNotFoundError` (the spec's NotFoundError). -/
def JWTBlacklist_create (db : DB) (entry : BlacklistEntry) : Except AppError DB :=
  if db.jwt_blacklist.any (fun e => e.token == entry.token) then
    .error .UniqueViolationError
  else if db.users.any (fun u => u.id == entry.userId) then
    .ok { db with jwt_blacklist := db.jwt_blacklist ++ [entry] }
  else
    .error .RecordNotFoundError

/-- `internal.settings`: the signing secret and the token lifetime in
minutes (the fixed HMAC algorithm identifier is absorbed into the ideal
MAC). -/
structure Settings where
  SECRET_KEY : String
  ACCESS_TOKEN_EXPIRE_MINUTES : Nat
deriving DecidableEq, Repr

/-- `TokenData(email=email)` from `internal.auth.schemas`: a record
holding the email decoded from the token. -/
structure TokenData where
  email : String
deriving DecidableEq, Repr

/-- `UserResponse` as consumed by `add_access_token_blacklist`: the
logged-in user's id (the only field the function reads) and email. -/
structure UserResponse where
  id : Nat
  email : String
deriving DecidableEq, Repr

/-- `generate_password_hash(password)`: `PWD.hash(secret=password)` with
a fresh random salt; the salt drawn by passlib is the explicit `salt`
argument here. -/
def generate_password_hash (password : String) (salt : Nat) : HashStr :=
  .bcrypt salt password

/-- `verify_password(plain_password, hashed_password)`:
`PWD.verify(plain, hashed)`.  On a well-formed bcrypt hash it recomputes
the digest with the embedded salt and compares; on a string that is not
a recognisable hash, passlib raises `UnknownHashError` instead of
returning a Bool. -/
def verify_password (plain_password : String) (hashed_password : HashStr) :
    Except AppError Bool :=
  match hashed_password with
  | .bcrypt _ secret => .ok (plain_password == secret)
  | .malformed _ => .error .UnknownHashError

/-- `authenticate_user(email, password)`: looks the user up by email and
returns it when the password verifies, `none` (Python `False`) when the
user is absent or the password does not verify; an error raised by
`verify_password` propagates. -/
def authenticate_user (email password : String) (db : DB) :
    Except AppError (Option UserRec) :=
  match User_find_first db email with
  | none => .ok none
  | some user =>
    match verify_password password user.password with
    | .error e => .error e
    | .ok b => .ok (if b then some user else none)

/-- `create_access_token(data)`: copies the claims, overwrites `exp` with
now plus the configured lifetime, and signs with the secret key. -/
def create_access_token (data : Payload) (now : Int) (cfg : Settings) : Token :=
  jwt_encode { data with exp := some (now + 60 * cfg.ACCESS_TOKEN_EXPIRE_MINUTES) }
    cfg.SECRET_KEY

/-- The `{"access_token": ..., "token_type": "bearer"}` response of
`login_for_access_token`. -/
structure TokenResponse where
  access_token : Token
  token_type : String
deriving DecidableEq, Repr

/-- `login_for_access_token(email, password)`: authenticates and, on
failure, raises `CredentialException`; on success issues a token whose
`sub` claim is the user's email and returns it with token type
`"bearer"`. -/
def login_for_access_token (email password : String) (db : DB) (now : Int)
    (cfg : Settings) : Except AppError TokenResponse :=
  match authenticate_user email password db with
  | .error e => .error e
  | .ok none => .error .CredentialException
  | .ok (some user) =>
    .ok ⟨create_access_token ⟨some user.email, none, none⟩ now cfg, "bearer"⟩

/-- `get_current_user(token)`: decodes the token (expired signature →
`TokenExpiredException`, any other invalid token → `CredentialException`),
requires a `sub` claim, resolves the user by that email including the
user's blacklist entries, and rejects a blacklisted token with
`TokenExpiredException`. -/
def get_current_user (token : Token) (db : DB) (now : Int) (cfg : Settings) :
    Except AppError UserRec :=
  match jwt_decode token cfg.SECRET_KEY now with
  | .error .expiredSignature => .error .TokenExpiredException
  | .error .invalidSignature => .error .CredentialException
  | .ok payload =>
    match payload.sub with
    | none => .error .CredentialException
    | some email =>
      let token_data : TokenData := ⟨email⟩
      match User_find_first db token_data.email with
      | none => .error .CredentialException
      | some user =>
        if ((db.jwt_blacklist.filter (fun e => e.userId == user.id)).any
            (fun e => e.token == token)) then
          .error .TokenExpiredException
        else
          .ok user

/-- `add_access_token_blacklist(token, user)`: inserts a blacklist entry
connecting the token to the user's id. -/
def add_access_token_blacklist (token : Token) (user : UserResponse) (db : DB) :
    Except AppError DB :=
  JWTBlacklist_create db ⟨token, user.id⟩

end AuthCore

namespace AuthCore

/-! Concrete fixtures, used by witnesses and counterexamples: the
configuration, a seeded user whose stored hash is `Hash("secret")`, a
store holding that user and an empty blacklist, and the token issued for
that user at time 0. -/

def cfg0 : Settings := ⟨"supersecret", 30⟩

def u0 : UserRec := ⟨1, "a@x.com", HashStr.bcrypt 7 "secret"⟩

def db0 : DB := ⟨[u0], []⟩

def tok0 : Token := create_access_token ⟨some "a@x.com", none, none⟩ 0 cfg0

/-! Helper lemmas about the token codec. -/

theorem jwt_decode_encode (p : Payload) (key : String) (now : Int) :
    jwt_decode (jwt_encode p key) key now =
      match p.exp with
      | none => Except.ok p
      | some e => if e ≤ now then Except.error JwtError.expiredSignature
          else Except.ok p := by
  simp [jwt_decode, jwt_encode]

theorem jwt_decode_tampered (p pm : Payload) (key : String) (now : Int)
    (h : pm ≠ p) :
    jwt_decode ⟨pm, (jwt_encode p key).sig⟩ key now =
      Except.error JwtError.invalidSignature := by
  have hne : (jwt_encode p key).sig ≠ hmacSign key pm := by
    simp only [jwt_encode, hmacSign, ne_eq, Signature.mk.injEq]
    intro hc
    exact h hc.1.symm
  simp [jwt_decode, hne]

/-- Claim C7: for every password `p` (and every salt passlib draws),
`verify_password p (generate_password_hash p) = true`: the hash-then-
verify round trip succeeds with the salt embedded in the hash. -/
theorem C7_hash_verify_roundtrip (p : String) (salt : Nat) :
    verify_password p (generate_password_hash p salt) = Except.ok true := by
  simp [verify_password, generate_password_hash]

/-- Claim C8 counterexample: on a string that is not a well-formed hash,
`verify_password` surfaces passlib's `UnknownHashError` instead of
returning `false` — refuting the claim that it returns false rather
than raising for every hash argument. -/
theorem C8_counterexample :
    verify_password "password" (HashStr.malformed "not-a-hash") =
        Except.error AppError.UnknownHashError ∧
      verify_password "password" (HashStr.malformed "not-a-hash") ≠
        Except.ok false := by
  constructor
  · rfl
  · intro hc
    exact Except.noConfusion hc

/-- Claim C8 (amended): for every well-formed bcrypt hash,
`verify_password` returns a boolean verdict without raising, but on a
malformed hash string it raises passlib's `UnknownHashError` (a
`ValueError`) rather than returning false. -/
theorem C8_verify_never_raises_amended (p : String) (salt : Nat)
    (secret s : String) :
    verify_password p (HashStr.bcrypt salt secret) = Except.ok (p == secret) ∧
      verify_password p (HashStr.malformed s) =
        Except.error AppError.UnknownHashError :=
  ⟨rfl, rfl⟩

end AuthCore

namespace AuthCore

/-! Helper lemmas characterising `get_current_user` on the three kinds of
token: validly signed and unexpired, validly signed but expired, and
signed over a different payload than the one presented. -/

theorem get_current_user_valid (p : Payload) (db : DB) (now : Int) (cfg : Settings)
    (hexp : ∀ e, p.exp = some e → now < e) :
    get_current_user (jwt_encode p cfg.SECRET_KEY) db now cfg =
      match p.sub with
      | none => Except.error AppError.CredentialException
      | some email =>
        match User_find_first db email with
        | none => Except.error AppError.CredentialException
        | some user =>
          if ((db.jwt_blacklist.filter (fun e => e.userId == user.id)).any
              (fun e => e.token == jwt_encode p cfg.SECRET_KEY)) then
            Except.error AppError.TokenExpiredException
          else
            Except.ok user := by
  unfold get_current_user
  rw [jwt_decode_encode]
  cases hpe : p.exp with
  | none => simp [hpe]
  | some e =>
    have hlt : ¬ (e ≤ now) := not_le.mpr (hexp e hpe)
    simp [hpe, hlt]

theorem get_current_user_expired (p : Payload) (e : Int) (db : DB) (now : Int)
    (cfg : Settings) (hpe : p.exp = some e) (h : e ≤ now) :
    get_current_user (jwt_encode p cfg.SECRET_KEY) db now cfg =
      Except.error AppError.TokenExpiredException := by
  unfold get_current_user
  rw [jwt_decode_encode]
  simp [hpe, h]

theorem get_current_user_tampered (p pm : Payload) (db : DB) (now : Int)
    (cfg : Settings) (h : pm ≠ p) :
    get_current_user ⟨pm, (jwt_encode p cfg.SECRET_KEY).sig⟩ db now cfg =
      Except.error AppError.CredentialException := by
  unfold get_current_user
  rw [jwt_decode_tampered p pm cfg.SECRET_KEY now h]

theorem get_current_user_valid_none (p : Payload) (db : DB) (now : Int)
    (cfg : Settings) (hexp : ∀ e, p.exp = some e → now < e)
    (hsub : p.sub = none) :
    get_current_user (jwt_encode p cfg.SECRET_KEY) db now cfg =
      Except.error AppError.CredentialException := by
  rw [get_current_user_valid p db now cfg hexp, hsub]

theorem get_current_user_valid_some (p : Payload) (email : String) (db : DB)
    (now : Int) (cfg : Settings) (hexp : ∀ e, p.exp = some e → now < e)
    (hsub : p.sub = some email) :
    get_current_user (jwt_encode p cfg.SECRET_KEY) db now cfg =
      match User_find_first db email with
      | none => Except.error AppError.CredentialException
      | some user =>
        if ((db.jwt_blacklist.filter (fun e => e.userId == user.id)).any
            (fun e => e.token == jwt_encode p cfg.SECRET_KEY)) then
          Except.error AppError.TokenExpiredException
        else
          Except.ok user := by
  rw [get_current_user_valid p db now cfg hexp, hsub]

theorem get_current_user_ne_expired (p : Payload) (db : DB) (now : Int)
    (cfg : Settings) (hexp : ∀ e, p.exp = some e → now < e)
    (hbl : ∀ e ∈ db.jwt_blacklist, e.token ≠ jwt_encode p cfg.SECRET_KEY) :
    get_current_user (jwt_encode p cfg.SECRET_KEY) db now cfg ≠
      Except.error AppError.TokenExpiredException := by
  have hany : ∀ user : UserRec,
      ((db.jwt_blacklist.filter (fun e => e.userId == user.id)).any
        (fun e => e.token == jwt_encode p cfg.SECRET_KEY)) = false := by
    intro user
    rw [List.any_eq_false]
    intro e he
    have hmem := (List.mem_filter.mp he).1
    simpa using hbl e hmem
  intro hc
  rcases hsub : p.sub with _ | email
  · rw [get_current_user_valid_none p db now cfg hexp hsub] at hc
    exact AppError.noConfusion (Except.error.inj hc)
  · rw [get_current_user_valid_some p email db now cfg hexp hsub] at hc
    rcases hf : User_find_first db email with _ | user
    · rw [hf] at hc
      exact AppError.noConfusion (Except.error.inj hc)
    · rw [hf] at hc
      have hcond : ¬ (((db.jwt_blacklist.filter (fun e => e.userId == user.id)).any
          (fun e => e.token == jwt_encode p cfg.SECRET_KEY)) = true) := by
        rw [hany user]
        simp
      have hc2 : (if ((db.jwt_blacklist.filter (fun e => e.userId == user.id)).any
          (fun e => e.token == jwt_encode p cfg.SECRET_KEY)) then
            Except.error AppError.TokenExpiredException
          else Except.ok user) = Except.error AppError.TokenExpiredException := hc
      rw [if_neg hcond] at hc2
      exact Except.noConfusion hc2

/-- Claim C2: a token issued by `create_access_token` at `t0` under the
configured lifetime of `ACCESS_TOKEN_EXPIRE_MINUTES` minutes is, as long
as it is not blacklisted, never rejected as expired by
`get_current_user` at any check time strictly before the expiry instant,
and is rejected with `TokenExpiredException` at every check time at or
after the expiry instant (the latter whatever the store contents). -/
theorem C2_expiry_window (data : Payload) (db : DB) (cfg : Settings) (t0 now : Int) :
    (now < t0 + 60 * (cfg.ACCESS_TOKEN_EXPIRE_MINUTES : Int) →
      (∀ e ∈ db.jwt_blacklist, e.token ≠ create_access_token data t0 cfg) →
      get_current_user (create_access_token data t0 cfg) db now cfg ≠
        Except.error AppError.TokenExpiredException)
    ∧ (t0 + 60 * (cfg.ACCESS_TOKEN_EXPIRE_MINUTES : Int) ≤ now →
      get_current_user (create_access_token data t0 cfg) db now cfg =
        Except.error AppError.TokenExpiredException) := by
  constructor
  · intro h hbl
    unfold create_access_token at hbl ⊢
    refine get_current_user_ne_expired _ db now cfg ?_ hbl
    intro ee hee
    have h2 : some (t0 + 60 * (cfg.ACCESS_TOKEN_EXPIRE_MINUTES : Int)) = some ee := hee
    injection h2 with h3
    omega
  · intro h
    exact get_current_user_expired _ _ db now cfg rfl h

/-- Claim C3: presenting an issued token whose payload was modified in
any way (while keeping the original signature) makes `get_current_user`
fail through the invalid-token branch, i.e. with `CredentialException`,
never with `TokenExpiredException`, and the two error values are
distinct, so a caller can distinguish them. -/
theorem C3_tampered_payload (data : Payload) (db : DB) (cfg : Settings)
    (t0 now : Int) (pm : Payload)
    (h : pm ≠ (create_access_token data t0 cfg).payload) :
    get_current_user ⟨pm, (create_access_token data t0 cfg).sig⟩ db now cfg =
        Except.error AppError.CredentialException ∧
      AppError.CredentialException ≠ AppError.TokenExpiredException := by
  refine ⟨?_, by decide⟩
  exact get_current_user_tampered _ pm db now cfg h

/-- Claim C10: a token with a valid signature and an unexpired `exp`
claim but no `sub` claim is rejected by `get_current_user` with
`CredentialException` (the invalid-credentials error), not with the
expired-token error. -/
theorem C10_missing_sub (cfg : Settings) (e : Int) (iat : Option Int) (db : DB)
    (now : Int) (h : now < e) :
    get_current_user (jwt_encode ⟨none, some e, iat⟩ cfg.SECRET_KEY) db now cfg =
        Except.error AppError.CredentialException ∧
      get_current_user (jwt_encode ⟨none, some e, iat⟩ cfg.SECRET_KEY) db now cfg ≠
        Except.error AppError.TokenExpiredException := by
  have hval := get_current_user_valid ⟨none, some e, iat⟩ db now cfg
    (by
      intro ee hee
      have h2 : some e = some ee := hee
      injection h2 with h3
      omega)
  constructor
  · rw [hval]
  · rw [hval]
    intro hc
    have h2 : AppError.CredentialException = AppError.TokenExpiredException :=
      Except.error.inj hc
    exact AppError.noConfusion h2

end AuthCore

namespace AuthCore

theorem get_current_user_ok (p : Payload) (u : UserRec) (db : DB) (now : Int)
    (cfg : Settings) (hexp : ∀ e, p.exp = some e → now < e)
    (hsub : p.sub = some u.email)
    (hfind : User_find_first db u.email = some u)
    (hbl : ∀ e ∈ db.jwt_blacklist, e.token ≠ jwt_encode p cfg.SECRET_KEY) :
    get_current_user (jwt_encode p cfg.SECRET_KEY) db now cfg = Except.ok u := by
  rw [get_current_user_valid_some p u.email db now cfg hexp hsub, hfind]
  have hfalse : ((db.jwt_blacklist.filter (fun e => e.userId == u.id)).any
      (fun e => e.token == jwt_encode p cfg.SECRET_KEY)) = false := by
    rw [List.any_eq_false]
    intro e he hx
    exact hbl e (List.mem_filter.mp he).1 (eq_of_beq hx)
  show (if ((db.jwt_blacklist.filter (fun e => e.userId == u.id)).any
      (fun e => e.token == jwt_encode p cfg.SECRET_KEY)) then
        Except.error AppError.TokenExpiredException
      else Except.ok u) = Except.ok u
  rw [hfalse]
  exact if_neg (fun hc => Bool.noConfusion hc)

theorem get_current_user_blacklisted (p : Payload) (u : UserRec) (db : DB)
    (now : Int) (cfg : Settings) (hexp : ∀ e, p.exp = some e → now < e)
    (hsub : p.sub = some u.email)
    (hfind : User_find_first db u.email = some u)
    (hin : (⟨jwt_encode p cfg.SECRET_KEY, u.id⟩ : BlacklistEntry) ∈ db.jwt_blacklist) :
    get_current_user (jwt_encode p cfg.SECRET_KEY) db now cfg =
      Except.error AppError.TokenExpiredException := by
  rw [get_current_user_valid_some p u.email db now cfg hexp hsub, hfind]
  have htrue : ((db.jwt_blacklist.filter (fun e => e.userId == u.id)).any
      (fun e => e.token == jwt_encode p cfg.SECRET_KEY)) = true := by
    rw [List.any_eq_true]
    exact ⟨⟨jwt_encode p cfg.SECRET_KEY, u.id⟩,
      List.mem_filter.mpr ⟨hin, by simp⟩, by simp⟩
  show (if ((db.jwt_blacklist.filter (fun e => e.userId == u.id)).any
      (fun e => e.token == jwt_encode p cfg.SECRET_KEY)) then
        Except.error AppError.TokenExpiredException
      else Except.ok u) = Except.error AppError.TokenExpiredException
  rw [htrue]
  exact if_pos rfl

theorem JWTBlacklist_create_twice (db db2 : DB) (entry : BlacklistEntry)
    (h : JWTBlacklist_create db entry = Except.ok db2) :
    JWTBlacklist_create db2 entry = Except.error AppError.UniqueViolationError := by
  unfold JWTBlacklist_create at h ⊢
  by_cases h1 : (db.jwt_blacklist.any (fun e => e.token == entry.token)) = true
  · rw [if_pos h1] at h
    exact Except.noConfusion h
  · rw [if_neg h1] at h
    by_cases h2 : (db.users.any (fun u => u.id == entry.userId)) = true
    · rw [if_pos h2] at h
      have hdb2 : ({ db with jwt_blacklist := db.jwt_blacklist ++ [entry] } : DB)
          = db2 := Except.ok.inj h
      subst hdb2
      simp [List.any_append]
    · rw [if_neg h2] at h
      exact Except.noConfusion h

/-- Claim C4: `login_for_access_token` fails with the single error value
`CredentialException` both when no user with the given email exists and
when the user exists but the supplied password does not verify against
the stored hash, so the error does not reveal which check failed. -/
theorem C4_single_credential_error (email password : String) (db : DB)
    (now : Int) (cfg : Settings) :
    (User_find_first db email = none →
      login_for_access_token email password db now cfg =
        Except.error AppError.CredentialException)
    ∧ (∀ u : UserRec, User_find_first db email = some u →
      verify_password password u.password = Except.ok false →
      login_for_access_token email password db now cfg =
        Except.error AppError.CredentialException) := by
  constructor
  · intro h
    simp [login_for_access_token, authenticate_user, h]
  · intro u hu hpw
    simp [login_for_access_token, authenticate_user, hu, hpw]

theorem C4_witness :
    login_for_access_token "b@x.com" "secret" db0 0 cfg0 =
        Except.error AppError.CredentialException ∧
      login_for_access_token "a@x.com" "wrong" db0 0 cfg0 =
        Except.error AppError.CredentialException :=
  ⟨(C4_single_credential_error "b@x.com" "secret" db0 0 cfg0).1 rfl,
    (C4_single_credential_error "a@x.com" "wrong" db0 0 cfg0).2 u0 rfl rfl⟩

/-- Claim C5: when the stored hash of the user resolved by email matches
the supplied password, `login_for_access_token` returns the issued token
whose `sub` claim is that user's email together with token type
`"bearer"`, and `get_current_user` on that token — before its expiry and
with the token not blacklisted — returns that same user. -/
theorem C5_login_roundtrip (u : UserRec) (db : DB) (cfg : Settings)
    (email password : String) (t0 now : Int)
    (hfind : User_find_first db email = some u)
    (hpw : verify_password password u.password = Except.ok true)
    (hnow : now < t0 + 60 * (cfg.ACCESS_TOKEN_EXPIRE_MINUTES : Int))
    (hbl : ∀ e ∈ db.jwt_blacklist,
      e.token ≠ create_access_token ⟨some u.email, none, none⟩ t0 cfg) :
    login_for_access_token email password db t0 cfg =
        Except.ok ⟨create_access_token ⟨some u.email, none, none⟩ t0 cfg, "bearer"⟩ ∧
      (create_access_token ⟨some u.email, none, none⟩ t0 cfg).payload.sub =
        some u.email ∧
      get_current_user (create_access_token ⟨some u.email, none, none⟩ t0 cfg)
        db now cfg = Except.ok u := by
  have heq : u.email = email := by
    have hpred := List.find?_some hfind
    simpa using hpred
  refine ⟨?_, rfl, ?_⟩
  · simp [login_for_access_token, authenticate_user, hfind, hpw]
  · have hfind2 : User_find_first db u.email = some u := by
      rw [heq]
      exact hfind
    have hexp2 : ∀ e, (⟨some u.email,
        some (t0 + 60 * (cfg.ACCESS_TOKEN_EXPIRE_MINUTES : Int)), none⟩ :
        Payload).exp = some e → now < e := by
      intro ee hee
      have h2 : some (t0 + 60 * (cfg.ACCESS_TOKEN_EXPIRE_MINUTES : Int)) = some ee := hee
      injection h2 with h3
      omega
    exact get_current_user_ok
      ⟨some u.email, some (t0 + 60 * (cfg.ACCESS_TOKEN_EXPIRE_MINUTES : Int)), none⟩
      u db now cfg hexp2 rfl hfind2 hbl

theorem C5_witness :
    login_for_access_token "a@x.com" "secret" db0 0 cfg0 =
        Except.ok ⟨tok0, "bearer"⟩ ∧
      tok0.payload.sub = some "a@x.com" ∧
      get_current_user tok0 db0 5 cfg0 = Except.ok u0 := by
  have h := C5_login_roundtrip u0 db0 cfg0 "a@x.com" "secret" 0 5 rfl rfl
    (by decide) (by intro e he; exact absurd he (List.not_mem_nil e))
  exact h

/-- Claim C6 counterexample: the token issued by `create_access_token`
for the seeded subject carries a payload with exactly the `sub` and
`exp` claims and no `iat` (issuedAt) claim, refuting the claim that the
payload contains exactly the fields subject, expiresAt and issuedAt. -/
theorem C6_counterexample :
    (create_access_token ⟨some "a@x.com", none, none⟩ 0 cfg0).payload =
        ⟨some "a@x.com", some 1800, none⟩ ∧
      (create_access_token ⟨some "a@x.com", none, none⟩ 0 cfg0).payload.iat =
        none := by
  constructor <;> rfl

/-- Claim C6 (amended): every token produced by `create_access_token` is
a symmetrically signed encoding of a structured payload containing
exactly the fields subject and expiresAt (no issuedAt claim is written),
and the signature covers all claim fields: presenting any different
payload under the original signature fails signature verification. -/
theorem C6_payload_fields_amended (sub : Option String) (t0 : Int)
    (cfg : Settings) (pm : Payload)
    (h : pm ≠ (create_access_token ⟨sub, none, none⟩ t0 cfg).payload) :
    (create_access_token ⟨sub, none, none⟩ t0 cfg).payload =
        ⟨sub, some (t0 + 60 * (cfg.ACCESS_TOKEN_EXPIRE_MINUTES : Int)), none⟩ ∧
      create_access_token ⟨sub, none, none⟩ t0 cfg =
        jwt_encode ⟨sub, some (t0 + 60 * (cfg.ACCESS_TOKEN_EXPIRE_MINUTES : Int)), none⟩
          cfg.SECRET_KEY ∧
      ∀ now : Int,
        jwt_decode ⟨pm, (create_access_token ⟨sub, none, none⟩ t0 cfg).sig⟩
          cfg.SECRET_KEY now = Except.error JwtError.invalidSignature := by
  refine ⟨rfl, rfl, ?_⟩
  intro now
  exact jwt_decode_tampered _ pm cfg.SECRET_KEY now h

theorem C6_witness :
    (create_access_token ⟨some "a@x.com", none, none⟩ 0 cfg0).payload =
        ⟨some "a@x.com", some 1800, none⟩ ∧
      create_access_token ⟨some "a@x.com", none, none⟩ 0 cfg0 =
        jwt_encode ⟨some "a@x.com", some 1800, none⟩ cfg0.SECRET_KEY ∧
      ∀ now : Int,
        jwt_decode ⟨⟨some "a@x.com", some 9999, none⟩,
          (create_access_token ⟨some "a@x.com", none, none⟩ 0 cfg0).sig⟩
          cfg0.SECRET_KEY now = Except.error JwtError.invalidSignature := by
  have h := C6_payload_fields_amended (some "a@x.com") 0 cfg0
    ⟨some "a@x.com", some 9999, none⟩ (by decide)
  exact h

end AuthCore

namespace AuthCore

/-- Claim C1: when a token issued for its owning user is successfully
revoked via `add_access_token_blacklist(token, user)`, a subsequent
`get_current_user(token)` fails with `TokenExpiredException` — at every
check time, in particular even before the token's expiry timestamp — so
revocation is surfaced identically to natural expiry. -/
theorem C1_revoked_token_expired (u : UserRec) (db : DB) (cfg : Settings)
    (t0 now : Int)
    (hfind : User_find_first db u.email = some u)
    (hdup : (db.jwt_blacklist.any (fun e =>
      e.token == create_access_token ⟨some u.email, none, none⟩ t0 cfg)) = false) :
    ∃ db2, add_access_token_blacklist
        (create_access_token ⟨some u.email, none, none⟩ t0 cfg)
        ⟨u.id, u.email⟩ db = Except.ok db2 ∧
      get_current_user (create_access_token ⟨some u.email, none, none⟩ t0 cfg)
        db2 now cfg = Except.error AppError.TokenExpiredException := by
  have hmem : u ∈ db.users := List.mem_of_find?_eq_some hfind
  have husers : (db.users.any (fun v => v.id == u.id)) = true :=
    List.any_eq_true.mpr ⟨u, hmem, by simp⟩
  refine ⟨{ db with jwt_blacklist := db.jwt_blacklist ++
      [⟨create_access_token ⟨some u.email, none, none⟩ t0 cfg, u.id⟩] }, ?_, ?_⟩
  · simp [add_access_token_blacklist, JWTBlacklist_create, hdup, husers]
  · by_cases hnow : t0 + 60 * (cfg.ACCESS_TOKEN_EXPIRE_MINUTES : Int) ≤ now
    · exact get_current_user_expired
        ⟨some u.email, some (t0 + 60 * (cfg.ACCESS_TOKEN_EXPIRE_MINUTES : Int)), none⟩
        (t0 + 60 * (cfg.ACCESS_TOKEN_EXPIRE_MINUTES : Int)) _ now cfg rfl hnow
    · have hexp2 : ∀ e, (⟨some u.email,
          some (t0 + 60 * (cfg.ACCESS_TOKEN_EXPIRE_MINUTES : Int)), none⟩ :
          Payload).exp = some e → now < e := by
        intro ee hee
        have h2 : some (t0 + 60 * (cfg.ACCESS_TOKEN_EXPIRE_MINUTES : Int)) = some ee := hee
        injection h2 with h3
        omega
      refine get_current_user_blacklisted
        ⟨some u.email, some (t0 + 60 * (cfg.ACCESS_TOKEN_EXPIRE_MINUTES : Int)), none⟩
        u _ now cfg hexp2 rfl hfind ?_
      exact List.mem_append_right _ (List.mem_singleton.mpr rfl)

theorem C1_witness :
    ∃ db2, add_access_token_blacklist tok0 ⟨1, "a@x.com"⟩ db0 = Except.ok db2 ∧
      get_current_user tok0 db2 5 cfg0 =
        Except.error AppError.TokenExpiredException := by
  have h := C1_revoked_token_expired u0 db0 cfg0 0 5 rfl rfl
  exact h

/-- Claim C9: the code lets a second revocation of the same token
surface the store's `UniqueViolationError` unhandled (the blacklist's
token column is unique and `add_access_token_blacklist` wraps the insert
in no error handling), contradicting the requirement that a duplicate
revoke never be an unhandled failure; this theorem evaluates the code at
the failing input: a second call with a token whose first insertion
succeeded. -/
theorem C9_duplicate_revocation (tok : Token) (user : UserResponse)
    (db db2 : DB)
    (h : add_access_token_blacklist tok user db = Except.ok db2) :
    add_access_token_blacklist tok user db2 =
      Except.error AppError.UniqueViolationError := by
  unfold add_access_token_blacklist at h ⊢
  exact JWTBlacklist_create_twice db db2 ⟨tok, user.id⟩ h

theorem C9_witness :
    add_access_token_blacklist tok0 ⟨1, "a@x.com"⟩
        ⟨[u0], [⟨tok0, 1⟩]⟩ = Except.error AppError.UniqueViolationError :=
  C9_duplicate_revocation tok0 ⟨1, "a@x.com"⟩ db0 ⟨[u0], [⟨tok0, 1⟩]⟩ rfl

end AuthCore

namespace AuthCore

theorem C2_witness :
    get_current_user (create_access_token ⟨some "a@x.com", none, none⟩ 0 cfg0)
        db0 5 cfg0 ≠ Except.error AppError.TokenExpiredException ∧
      get_current_user (create_access_token ⟨some "a@x.com", none, none⟩ 0 cfg0)
        db0 1800 cfg0 = Except.error AppError.TokenExpiredException := by
  refine ⟨(C2_expiry_window ⟨some "a@x.com", none, none⟩ db0 cfg0 0 5).1
      (by decide) ?_,
    (C2_expiry_window ⟨some "a@x.com", none, none⟩ db0 cfg0 0 1800).2 (by decide)⟩
  intro e he
  exact absurd he (List.not_mem_nil e)

theorem C3_witness :
    get_current_user ⟨⟨some "b@x.com", some 1800, none⟩,
        (create_access_token ⟨some "a@x.com", none, none⟩ 0 cfg0).sig⟩
        db0 5 cfg0 = Except.error AppError.CredentialException ∧
      AppError.CredentialException ≠ AppError.TokenExpiredException :=
  C3_tampered_payload ⟨some "a@x.com", none, none⟩ db0 cfg0 0 5
    ⟨some "b@x.com", some 1800, none⟩ (by decide)

theorem C10_witness :
    get_current_user (jwt_encode ⟨none, some 100, none⟩ cfg0.SECRET_KEY)
        db0 5 cfg0 = Except.error AppError.CredentialException ∧
      get_current_user (jwt_encode ⟨none, some 100, none⟩ cfg0.SECRET_KEY)
        db0 5 cfg0 ≠ Except.error AppError.TokenExpiredException :=
  C10_missing_sub cfg0 100 none db0 5 (by decide)

end AuthCore
